import Mathlib

/-!
Shallow embedding of the consumption and cost-allocation engine of the
`electric` repository (FastAPI service for electricity metering).

Values of the Python `Decimal` type are modelled as rationals `ℚ`;
`Decimal.quantize(Decimal("0.01"))` (Python default rounding mode
ROUND_HALF_EVEN) is modelled by `quantize2`.  Timestamps (`datetime`) are
modelled as integers with their order; the SQLAlchemy store is modelled as
lists of rows, with `.first()` taken as the first list element that
matches the filter and `.all()` as the sublist of matching elements.

Sources embedded here:
  * `app/models/enums.py`, `app/models/meter.py`, `app/models/meter_reading.py`,
    `app/models/cost_formula.py` (data model),
  * `app/services/meter.py` (meter queries),
  * `app/services/meter_reading.py` (v1 consumption and proportional
    cost distribution),
  * `app/services/v2/readings.py` (v2 absolute/relative consumption),
  * `app/services/v2/billing.py` (formula-based cost distribution).
-/

/-- Rounding of a rational to an integer, ties to even: the model of Python
`Decimal` rounding in the default context (ROUND_HALF_EVEN). `Rat.floor` is
used rather than `Int.floor` so that the function evaluates by kernel
reduction on concrete inputs. -/
def roundHalfEven (q : ℚ) : ℤ :=
  if q - Rat.floor q < 1/2 then Rat.floor q
  else if 1/2 < q - Rat.floor q then Rat.floor q + 1
  else if Rat.floor q % 2 = 0 then Rat.floor q else Rat.floor q + 1

/-- Model of `Decimal.quantize(Decimal("0.01"))`: round to two decimal
places, ties to even. -/
def quantize2 (q : ℚ) : ℚ := (roundHalfEven (q * 100) : ℚ) / 100

/-- `app/models/enums.py`: `MeterType`. -/
inductive MeterType
  | main_meter
  | sub_meter
deriving DecidableEq

/-- `app/models/enums.py`: `SubMeterKind`. -/
inductive SubMeterKind
  | physical
  | virtual
deriving DecidableEq

/-- `app/models/enums.py`: `ReadingType`. -/
inductive ReadingType
  | absolute
  | relative
deriving DecidableEq

/-- `app/models/meter.py`: the `Meter` row. -/
structure Meter where
  id : Int
  property_id : Int
  meter_type : MeterType
  sub_meter_kind : Option SubMeterKind
  name : Option String
  location : Option String
  is_active : Bool
deriving DecidableEq

/-- `app/models/meter_reading.py`: the `MeterReading` row.  The v2 service
filters on a `reading_type` column (declared by the v2 schemas); it is part
of the reading per the spec data model. -/
structure MeterReading where
  meter_id : Int
  reading_timestamp : Int
  value : ℚ
  reading_type : ReadingType
deriving DecidableEq

/-- `app/models/cost_formula.py`: the `CostFormula` row, with `get_terms()`
already applied (the JSON term map as an association list). -/
structure CostFormula where
  id : Int
  property_id : Int
  name : String
  description : Option String
  terms : List (String × ℚ)
  is_active : Bool
deriving DecidableEq

/-- The database snapshot the services query. -/
structure DB where
  meters : List Meter
  readings : List MeterReading
  formulas : List CostFormula

/-- `app/services/meter.py`: `get_main_meter_for_property` (`.first()` on the
rows filtered by property and `MAIN_METER`). -/
def get_main_meter_for_property (db : DB) (pid : Int) : Option Meter :=
  db.meters.find? (fun m =>
    decide (m.property_id = pid ∧ m.meter_type = MeterType.main_meter))

/-- Modelled from the spec: `get_submeters_for_property` is imported from
`app.services.meter` by both consumption calculators, but its definition is
absent from the source tree (only `get_physical_submeters_for_property`
exists there).  Per the spec interface `list_submeters(property_id)` and
section 4.2 (the calculators iterate all submeters of the property), it
returns every `SUB_METER` row of the property. -/
def get_submeters_for_property (db : DB) (pid : Int) : List Meter :=
  db.meters.filter (fun m =>
    decide (m.property_id = pid ∧ m.meter_type = MeterType.sub_meter))

/-- `app/services/meter_reading.py` and `app/services/v2/readings.py`:
`get_reading_value_at_timestamp` (identical in both modules): first reading
of the meter at exactly this timestamp, its value. -/
def get_reading_value_at_timestamp (db : DB) (mid t : Int) : Option ℚ :=
  (db.readings.find? (fun r =>
    decide (r.meter_id = mid ∧ r.reading_timestamp = t))).map MeterReading.value

/-- `app/services/meter_reading.py`: `compute_unmetered_value`. -/
def compute_unmetered_value (main_meter_value : Option ℚ)
    (submeter_values : List ℚ) : Option ℚ :=
  match main_meter_value with
  | none => none
  | some m => some (max 0 (m - submeter_values.sum))

/-- `app/services/v2/readings.py`: `_compute_unmetered` (same computation as
the v1 `compute_unmetered_value`). -/
def computeUnmeteredV2 (main_value : Option ℚ) (submeter_values : List ℚ) :
    Option ℚ :=
  match main_value with
  | none => none
  | some m => some (max 0 (m - submeter_values.sum))

namespace V2

/-- `app/services/v2/readings.py`, `compute_meter_consumption`: the query for
an absolute reading of the meter at exactly timestamp `t` (`.first()`). -/
def findAbsoluteReadingAt (db : DB) (mid t : Int) : Option MeterReading :=
  db.readings.find? (fun r =>
    decide (r.meter_id = mid ∧ r.reading_timestamp = t ∧
      r.reading_type = ReadingType.absolute))

/-- `app/services/v2/readings.py`, `compute_meter_consumption`: the query for
all relative readings of the meter with `start < t <= end` (`.all()`). -/
def relativeReadingsInPeriod (db : DB) (mid startT endT : Int) :
    List MeterReading :=
  db.readings.filter (fun r =>
    decide (r.meter_id = mid ∧ r.reading_type = ReadingType.relative ∧
      startT < r.reading_timestamp ∧ r.reading_timestamp ≤ endT))

/-- `app/services/v2/readings.py`: `compute_meter_consumption`. -/
def compute_meter_consumption (db : DB) (mid startT endT : Int) : Option ℚ :=
  match findAbsoluteReadingAt db mid startT, findAbsoluteReadingAt db mid endT with
  | some start_reading, some end_reading =>
      some (end_reading.value - start_reading.value)
  | _, _ =>
      let relative_readings := relativeReadingsInPeriod db mid startT endT
      if relative_readings.isEmpty then none
      else some ((relative_readings.map MeterReading.value).sum)

end V2

/-- `app/schemas/meter_reading.py`: `SubMeterConsumption` (v1). -/
structure SubMeterConsumption where
  name : String
  meter_id : Int
  location : Option String
  start_value : ℚ
  end_value : ℚ
  consumption : ℚ
deriving DecidableEq

/-- `app/schemas/meter_reading.py`: `PropertyConsumptionSummary` (v1). -/
structure PropertyConsumptionSummary where
  property_id : Int
  start_timestamp : Int
  end_timestamp : Int
  main_meter_consumption : Option ℚ
  submeters : List SubMeterConsumption
  total_submetered_consumption : ℚ
  unmetered_consumption : Option ℚ
deriving DecidableEq

/-- `app/schemas/meter_reading.py`: `SubMeterCostShare` (v1). -/
structure SubMeterCostShare where
  name : String
  meter_id : Int
  location : Option String
  consumption : ℚ
  consumption_share : ℚ
  unmetered_share : ℚ
  total_consumption : ℚ
  cost : ℚ
deriving DecidableEq

/-- `app/schemas/meter_reading.py`: `CostDistributionResult` (v1). -/
structure CostDistributionResult where
  property_id : Int
  start_timestamp : Int
  end_timestamp : Int
  total_cost : ℚ
  main_meter_consumption : Option ℚ
  unmetered_consumption : Option ℚ
  submeters : List SubMeterCostShare
deriving DecidableEq

namespace V1

/-- `app/services/meter_reading.py`, `get_property_consumption`: the main
meter consumption (`end - start` when both exact-timestamp readings exist). -/
def mainConsumption (db : DB) (pid startT endT : Int) : Option ℚ :=
  match get_main_meter_for_property db pid with
  | some mm =>
      match get_reading_value_at_timestamp db mm.id startT,
            get_reading_value_at_timestamp db mm.id endT with
      | some sv, some ev => some (ev - sv)
      | _, _ => none
  | none => none

/-- `app/services/meter_reading.py`, `get_property_consumption`: the loop
body producing one `SubMeterConsumption` entry, `none` when either boundary
reading is missing (the entry is then skipped). -/
def submeterEntry (db : DB) (startT endT : Int) (sm : Meter) :
    Option SubMeterConsumption :=
  match get_reading_value_at_timestamp db sm.id startT,
        get_reading_value_at_timestamp db sm.id endT with
  | some sv, some ev =>
      some { name := sm.name.getD "", meter_id := sm.id, location := sm.location,
             start_value := sv, end_value := ev, consumption := ev - sv }
  | _, _ => none

/-- `app/services/meter_reading.py`, `get_property_consumption`: the list of
per-submeter consumption entries (entries with missing data omitted). -/
def submeterConsumptions (db : DB) (pid startT endT : Int) :
    List SubMeterConsumption :=
  (get_submeters_for_property db pid).filterMap (submeterEntry db startT endT)

/-- `app/services/meter_reading.py`, `get_property_consumption`: the
accumulated `total_submetered`. -/
def totalSubmetered (db : DB) (pid startT endT : Int) : ℚ :=
  ((submeterConsumptions db pid startT endT).map SubMeterConsumption.consumption).sum

/-- `app/services/meter_reading.py`: `get_property_consumption`. -/
def get_property_consumption (db : DB) (pid startT endT : Int) :
    PropertyConsumptionSummary :=
  { property_id := pid, start_timestamp := startT, end_timestamp := endT,
    main_meter_consumption := mainConsumption db pid startT endT,
    submeters := submeterConsumptions db pid startT endT,
    total_submetered_consumption := totalSubmetered db pid startT endT,
    unmetered_consumption :=
      (mainConsumption db pid startT endT).map
        (fun mc => max 0 (mc - totalSubmetered db pid startT endT)) }

/-- `app/services/meter_reading.py`, `distribute_costs`: the first loop body,
building one `SubMeterCostShare` (its `cost` still `0`). -/
def mkCostShare (total_submetered : ℚ) (unmetered : Option ℚ)
    (sub : SubMeterConsumption) : SubMeterCostShare :=
  let shares : ℚ × ℚ :=
    match unmetered with
    | some u =>
        if 0 < total_submetered then
          (sub.consumption / total_submetered,
           sub.consumption / total_submetered * u)
        else (0, 0)
    | none => (0, 0)
  { name := sub.name, meter_id := sub.meter_id, location := sub.location,
    consumption := sub.consumption, consumption_share := shares.1,
    unmetered_share := shares.2,
    total_consumption := sub.consumption + shares.2, cost := 0 }

/-- `app/services/meter_reading.py`, `distribute_costs`: the
`submeter_cost_shares` list before costs are filled in. -/
def submeter_cost_shares (db : DB) (pid startT endT : Int) :
    List SubMeterCostShare :=
  (get_property_consumption db pid startT endT).submeters.map
    (mkCostShare (get_property_consumption db pid startT endT).total_submetered_consumption
      (get_property_consumption db pid startT endT).unmetered_consumption)

/-- `app/services/meter_reading.py`, `distribute_costs`: the accumulated
`total_consumption_for_cost` (the grand total of own-plus-unmetered-share
consumption). -/
def total_consumption_for_cost (db : DB) (pid startT endT : Int) : ℚ :=
  ((submeter_cost_shares db pid startT endT).map SubMeterCostShare.total_consumption).sum

/-- `app/services/meter_reading.py`, `distribute_costs`: the second loop
body, filling in `share.cost = (cost_ratio * total_cost).quantize("0.01")`. -/
def applyCost (grand_total total_cost : ℚ) (sh : SubMeterCostShare) :
    SubMeterCostShare :=
  { sh with cost := quantize2 (sh.total_consumption / grand_total * total_cost) }

/-- `app/services/meter_reading.py`: `distribute_costs` (proportional
strategy). -/
def distribute_costs (db : DB) (pid startT endT : Int) (total_cost : ℚ) :
    CostDistributionResult :=
  { property_id := pid, start_timestamp := startT, end_timestamp := endT,
    total_cost := total_cost,
    main_meter_consumption := (get_property_consumption db pid startT endT).main_meter_consumption,
    unmetered_consumption := (get_property_consumption db pid startT endT).unmetered_consumption,
    submeters :=
      if 0 < total_consumption_for_cost db pid startT endT then
        (submeter_cost_shares db pid startT endT).map
          (applyCost (total_consumption_for_cost db pid startT endT) total_cost)
      else submeter_cost_shares db pid startT endT }

end V1

/-- `app/schemas/v2/readings.py`: `SubMeterConsumptionV2`. -/
structure SubMeterConsumptionV2 where
  name : String
  meter_id : Int
  location : Option String
  consumption : ℚ
  is_virtual : Bool
deriving DecidableEq

/-- `app/schemas/v2/readings.py`: `ConsumptionSummaryV2`. -/
structure ConsumptionSummaryV2 where
  property_id : Int
  start_timestamp : Int
  end_timestamp : Int
  main_meter_consumption : Option ℚ
  submeters : List SubMeterConsumptionV2
  total_submetered_consumption : ℚ
  unmetered_consumption : Option ℚ
deriving DecidableEq

namespace V2

/-- `app/services/v2/readings.py`, `get_property_consumption`: the main
meter consumption for the period. -/
def mainConsumption (db : DB) (pid startT endT : Int) : Option ℚ :=
  match get_main_meter_for_property db pid with
  | some mm => compute_meter_consumption db mm.id startT endT
  | none => none

/-- `app/services/v2/readings.py`, `get_property_consumption`: the loop body
producing one physical `SubMeterConsumptionV2` entry (skipped when the
consumption is `None`). -/
def submeterEntry (db : DB) (startT endT : Int) (sm : Meter) :
    Option SubMeterConsumptionV2 :=
  (compute_meter_consumption db sm.id startT endT).map
    (fun c => { name := sm.name.getD "", meter_id := sm.id,
                location := sm.location, consumption := c, is_virtual := false })

/-- `app/services/v2/readings.py`, `get_property_consumption`: the list of
physical submeter entries. -/
def submeterConsumptions (db : DB) (pid startT endT : Int) :
    List SubMeterConsumptionV2 :=
  (get_submeters_for_property db pid).filterMap (submeterEntry db startT endT)

/-- `app/services/v2/readings.py`, `get_property_consumption`: the
accumulated `total_submetered`. -/
def totalSubmetered (db : DB) (pid startT endT : Int) : ℚ :=
  ((submeterConsumptions db pid startT endT).map SubMeterConsumptionV2.consumption).sum

/-- `app/services/v2/readings.py`, `get_property_consumption`: the unmetered
residual `_compute_unmetered(main_consumption, [total_submetered])`. -/
def unmeteredConsumption (db : DB) (pid startT endT : Int) : Option ℚ :=
  computeUnmeteredV2 (mainConsumption db pid startT endT) [totalSubmetered db pid startT endT]

/-- `app/services/v2/readings.py`, `get_property_consumption`: the submeter
list with the `_unmetered` virtual entry appended when the residual is
present and strictly positive. -/
def submetersWithUnmetered (db : DB) (pid startT endT : Int) :
    List SubMeterConsumptionV2 :=
  match unmeteredConsumption db pid startT endT with
  | some u =>
      if 0 < u then
        submeterConsumptions db pid startT endT ++
          [{ name := "_unmetered", meter_id := -1, location := none,
             consumption := u, is_virtual := true }]
      else submeterConsumptions db pid startT endT
  | none => submeterConsumptions db pid startT endT

/-- `app/services/v2/readings.py`: `get_property_consumption`. -/
def get_property_consumption (db : DB) (pid startT endT : Int) :
    ConsumptionSummaryV2 :=
  { property_id := pid, start_timestamp := startT, end_timestamp := endT,
    main_meter_consumption := mainConsumption db pid startT endT,
    submeters := submetersWithUnmetered db pid startT endT,
    total_submetered_consumption := totalSubmetered db pid startT endT,
    unmetered_consumption := unmeteredConsumption db pid startT endT }

/-- `app/services/v2/readings.py`, `compute_consumption_map`: the loop body
producing one `name -> consumption` pair (`str(submeter.id)` when the
submeter has no name). -/
def consumptionMapEntry (db : DB) (startT endT : Int) (sm : Meter) :
    Option (String × ℚ) :=
  (compute_meter_consumption db sm.id startT endT).map
    (fun c => (sm.name.getD (toString sm.id), c))

/-- `app/services/v2/readings.py`, `compute_consumption_map`: the submeter
part of the consumption dict, as an association list in meter order. -/
def submeterConsumptionPairs (db : DB) (pid startT endT : Int) :
    List (String × ℚ) :=
  (get_submeters_for_property db pid).filterMap (consumptionMapEntry db startT endT)

/-- `app/services/v2/readings.py`, `compute_consumption_map`: the
accumulated `total_submetered` over the dict values. -/
def totalSubmeteredMap (db : DB) (pid startT endT : Int) : ℚ :=
  ((submeterConsumptionPairs db pid startT endT).map Prod.snd).sum

/-- `app/services/v2/readings.py`, `compute_consumption_map`: the unmetered
residual inserted under the key `"_unmetered"` when not `None`. -/
def unmeteredMap (db : DB) (pid startT endT : Int) : Option ℚ :=
  computeUnmeteredV2 (mainConsumption db pid startT endT) [totalSubmeteredMap db pid startT endT]

/-- `app/services/v2/readings.py`: `compute_consumption_map`, returning
`(consumptions, main_consumption, unmetered)`. -/
def compute_consumption_map (db : DB) (pid startT endT : Int) :
    List (String × ℚ) × Option ℚ × Option ℚ :=
  (match unmeteredMap db pid startT endT with
   | some u => submeterConsumptionPairs db pid startT endT ++ [("_unmetered", u)]
   | none => submeterConsumptionPairs db pid startT endT,
   mainConsumption db pid startT endT,
   unmeteredMap db pid startT endT)

/-- `app/services/v2/billing.py`: the Python `consumptions.get(meter_name,
Decimal("0"))` on the consumption dict. -/
def dict_get (m : List (String × ℚ)) (k : String) (d : ℚ) : ℚ :=
  match m.find? (fun p => p.1 == k) with
  | some p => p.2
  | none => d

/-- `app/services/v2/billing.py`: `evaluate_formula`. -/
def evaluate_formula (terms consumptions : List (String × ℚ))
    (total_cost main_consumption : ℚ) : ℚ :=
  if main_consumption ≤ 0 then 0
  else
    quantize2 (total_cost *
      (terms.map (fun t => t.2 * dict_get consumptions t.1 0)).sum / main_consumption)

/-- `app/services/v2/billing.py`: `get_formulas_for_property`. -/
def get_formulas_for_property (db : DB) (pid : Int) (active_only : Bool) :
    List CostFormula :=
  db.formulas.filter (fun f => decide (f.property_id = pid) && (!active_only || f.is_active))

/-- `app/schemas/v2/billing.py`: `FormulaShareResult`. -/
structure FormulaShareResult where
  formula_id : Int
  name : String
  description : Option String
  terms : List (String × ℚ)
  weighted_consumption : ℚ
  cost : ℚ
deriving DecidableEq

/-- `app/schemas/v2/billing.py`: `CostDistributionResultV2`. -/
structure CostDistributionResultV2 where
  property_id : Int
  start_timestamp : Int
  end_timestamp : Int
  total_cost : ℚ
  main_meter_consumption : ℚ
  unmetered_consumption : Option ℚ
  meter_consumptions : List (String × ℚ)
  shares : List FormulaShareResult
deriving DecidableEq

/-- The two `HTTPException(status_code=400)` business-rule failures raised by
`app/services/v2/billing.py` `distribute_costs` (the spec's
PreconditionFailure). -/
inductive PreconditionFailure
  | no_active_formulas
  | main_consumption_unavailable
deriving DecidableEq

/-- `app/services/v2/billing.py`, `distribute_costs`: the loop body building
one `FormulaShareResult` for a formula. -/
def mkFormulaShare (consumptions : List (String × ℚ))
    (total_cost main_consumption : ℚ) (f : CostFormula) : FormulaShareResult :=
  { formula_id := f.id, name := f.name, description := f.description,
    terms := f.terms,
    weighted_consumption := (f.terms.map (fun t => t.2 * dict_get consumptions t.1 0)).sum,
    cost := evaluate_formula f.terms consumptions total_cost main_consumption }

/-- `app/services/v2/billing.py`: `distribute_costs` (formula strategy),
with the raised `HTTPException`s represented as `Except.error`. -/
def distribute_costs (db : DB) (pid startT endT : Int) (total_cost : ℚ) :
    Except PreconditionFailure CostDistributionResultV2 :=
  if (get_formulas_for_property db pid true).isEmpty then
    Except.error PreconditionFailure.no_active_formulas
  else
    match (compute_consumption_map db pid startT endT).2.1 with
    | none => Except.error PreconditionFailure.main_consumption_unavailable
    | some mc =>
        if mc ≤ 0 then Except.error PreconditionFailure.main_consumption_unavailable
        else
          Except.ok
            { property_id := pid, start_timestamp := startT, end_timestamp := endT,
              total_cost := total_cost, main_meter_consumption := mc,
              unmetered_consumption := (compute_consumption_map db pid startT endT).2.2,
              meter_consumptions := (compute_consumption_map db pid startT endT).1,
              shares := (get_formulas_for_property db pid true).map
                (mkFormulaShare (compute_consumption_map db pid startT endT).1 total_cost mc) }

/-- The disjunction of the two documented preconditions of the formula
distribution being violated: no active formula for the property, or the
main-meter consumption absent or non-positive. -/
def precondition_violated (db : DB) (pid startT endT : Int) : Prop :=
  get_formulas_for_property db pid true = [] ∨
  (compute_consumption_map db pid startT endT).2.1 = none ∨
  ∃ mc, (compute_consumption_map db pid startT endT).2.1 = some mc ∧ mc ≤ 0

end V2

/-- Fixture: a main meter for property 1. -/
def mMain : Meter :=
  { id := 1, property_id := 1, meter_type := MeterType.main_meter,
    sub_meter_kind := none, name := none, location := none, is_active := true }

/-- Fixture: a physical submeter named `apt_a` for property 1. -/
def mSubA : Meter :=
  { id := 2, property_id := 1, meter_type := MeterType.sub_meter,
    sub_meter_kind := some SubMeterKind.physical, name := some "apt_a",
    location := none, is_active := true }

/-- Fixture: property 1 with main meter going 0 to 10 and submeter `apt_a`
going 0 to 4 over the period, and one active cost formula. -/
def dbFull : DB :=
  { meters := [mMain, mSubA],
    readings :=
      [ { meter_id := 1, reading_timestamp := 0, value := 0, reading_type := ReadingType.absolute },
        { meter_id := 1, reading_timestamp := 10, value := 10, reading_type := ReadingType.absolute },
        { meter_id := 2, reading_timestamp := 0, value := 0, reading_type := ReadingType.absolute },
        { meter_id := 2, reading_timestamp := 10, value := 4, reading_type := ReadingType.absolute } ],
    formulas :=
      [ { id := 1, property_id := 1, name := "f", description := none,
          terms := [("apt_a", 1)], is_active := true } ] }

/-- Fixture: property 1 whose main meter has no readings while submeter
`apt_a` consumed 2 over the period. -/
def dbNoMain : DB :=
  { meters := [mMain, mSubA],
    readings :=
      [ { meter_id := 2, reading_timestamp := 0, value := 0, reading_type := ReadingType.absolute },
        { meter_id := 2, reading_timestamp := 10, value := 2, reading_type := ReadingType.absolute } ],
    formulas := [] }

/-- Fixture: property 1 where neither the main meter nor the submeter moved
over the period (all consumptions zero). -/
def dbZero : DB :=
  { meters := [mMain, mSubA],
    readings :=
      [ { meter_id := 1, reading_timestamp := 0, value := 5, reading_type := ReadingType.absolute },
        { meter_id := 1, reading_timestamp := 10, value := 5, reading_type := ReadingType.absolute },
        { meter_id := 2, reading_timestamp := 0, value := 7, reading_type := ReadingType.absolute },
        { meter_id := 2, reading_timestamp := 10, value := 7, reading_type := ReadingType.absolute } ],
    formulas := [] }

/-- Fixture: an absolute reading of meter 1 at timestamp 0 with value 5. -/
def rdA : MeterReading :=
  { meter_id := 1, reading_timestamp := 0, value := 5, reading_type := ReadingType.absolute }

/-- Fixture: an absolute reading of meter 1 at timestamp 10 with value 8. -/
def rdB : MeterReading :=
  { meter_id := 1, reading_timestamp := 10, value := 8, reading_type := ReadingType.absolute }

/-- Fixture: a reading store holding just the two absolute readings of
meter 1. -/
def dbAbs : DB := { meters := [], readings := [rdA, rdB], formulas := [] }

/-- Fixture: the cost share that `distribute_costs` produces for `apt_a` on
`dbFull` over the period 0..10 with total cost 100. -/
def shA : SubMeterCostShare :=
  { name := "apt_a", meter_id := 2, location := none, consumption := 4,
    consumption_share := 1, unmetered_share := 6, total_consumption := 10,
    cost := 100 }

/-- Fixture: the all-zero cost share that `distribute_costs` produces for
`apt_a` on `dbZero` over the period 0..10. -/
def shZ : SubMeterCostShare :=
  { name := "apt_a", meter_id := 2, location := none, consumption := 0,
    consumption_share := 0, unmetered_share := 0, total_consumption := 0,
    cost := 0 }

/-- Fixture: the distribution result the v2 `distribute_costs` returns on
`dbFull` over the period 0..10 with total cost 100. -/
def okResult : V2.CostDistributionResultV2 :=
  { property_id := 1, start_timestamp := 0, end_timestamp := 10,
    total_cost := 100, main_meter_consumption := 10,
    unmetered_consumption := some 6,
    meter_consumptions := [("apt_a", 4), ("_unmetered", 6)],
    shares := [{ formula_id := 1, name := "f", description := none,
                 terms := [("apt_a", 1)], weighted_consumption := 4,
                 cost := 40 }] }

theorem ratFloor_eq_intFloor (q : ℚ) : ((Rat.floor q : ℤ) : ℚ) = (⌊q⌋ : ℚ) := by
  rw [Rat.floor_def, Rat.floor_def']

theorem roundHalfEven_abs_sub_le (q : ℚ) : |(roundHalfEven q : ℚ) - q| ≤ 1/2 := by
  have hf : ((Rat.floor q : ℤ) : ℚ) = ((⌊q⌋ : ℤ) : ℚ) := ratFloor_eq_intFloor q
  have h0 : ((⌊q⌋ : ℤ) : ℚ) ≤ q := Int.floor_le q
  have h1 : q < ((⌊q⌋ : ℤ) : ℚ) + 1 := Int.lt_floor_add_one q
  unfold roundHalfEven
  split_ifs with hA hB hC
  · rw [hf] at hA
    rw [abs_le, hf]
    constructor <;> linarith
  · rw [hf] at hA hB
    rw [abs_le]
    push_cast
    rw [hf]
    constructor <;> linarith
  · rw [hf] at hA hB
    rw [abs_le, hf]
    constructor <;> linarith
  · rw [hf] at hA hB
    rw [abs_le]
    push_cast
    rw [hf]
    constructor <;> linarith

theorem quantize2_abs_sub_le (x : ℚ) : |quantize2 x - x| ≤ 1/200 := by
  have h := roundHalfEven_abs_sub_le (x * 100)
  unfold quantize2
  have heq : (roundHalfEven (x * 100) : ℚ) / 100 - x
      = ((roundHalfEven (x * 100) : ℚ) - x * 100) / 100 := by ring
  rw [heq, abs_div, abs_of_pos (by norm_num : (0:ℚ) < 100)]
  linarith

/-- C2: `compute_unmetered_value` returns `none` exactly when the main value
is absent; when the main value `m` is present it returns
`max 0 (m - sum submeter_values)`, hence the result is nonnegative and is
`0` whenever the submeter sum reaches `m`; the v2 `_compute_unmetered` is
the same function. -/
theorem compute_unmetered_value_spec (main : Option ℚ) (subs : List ℚ) :
    (compute_unmetered_value main subs = none ↔ main = none)
  ∧ (∀ m, main = some m →
      compute_unmetered_value main subs = some (max 0 (m - subs.sum)))
  ∧ (∀ v, compute_unmetered_value main subs = some v → 0 ≤ v)
  ∧ (∀ m, main = some m → m ≤ subs.sum →
      compute_unmetered_value main subs = some 0)
  ∧ computeUnmeteredV2 main subs = compute_unmetered_value main subs := by
  cases main with
  | none => simp [compute_unmetered_value, computeUnmeteredV2]
  | some m =>
      refine ⟨by simp [compute_unmetered_value], ?_, ?_, ?_, rfl⟩
      · intro m' hm'
        rw [Option.some.injEq] at hm'
        subst hm'
        rfl
      · intro v hv
        simp only [compute_unmetered_value, Option.some.injEq] at hv
        subst hv
        exact le_max_left 0 _
      · intro m' hm' hle
        rw [Option.some.injEq] at hm'
        subst hm'
        simp only [compute_unmetered_value, Option.some.injEq]
        exact max_eq_left (sub_nonpos.mpr hle)

theorem compute_unmetered_value_spec_witness :
    compute_unmetered_value (some 5) [2, 2] = some 1 :=
  ((compute_unmetered_value_spec (some 5) [2, 2]).2.1 5 rfl).trans
    (by with_unfolding_all decide)

/-- C8 counterexample: at the present main value `-1` with no submeters,
`compute_unmetered_value` returns `some 0` (the clamp fires), not the main
value itself. -/
theorem compute_unmetered_empty_counterexample :
    compute_unmetered_value (some (-1 : ℚ)) [] = some 0 ∧
    compute_unmetered_value (some (-1 : ℚ)) [] ≠ some (-1 : ℚ) := by
  with_unfolding_all decide

/-- C8 (amended): for every present nonnegative main value `m`,
`compute_unmetered_value` applied to `m` and an empty submeter list returns
exactly `m`. -/
theorem compute_unmetered_value_no_submeters (m : ℚ) (h : 0 ≤ m) :
    compute_unmetered_value (some m) [] = some m := by
  simp only [compute_unmetered_value, List.sum_nil, sub_zero, Option.some.injEq]
  exact max_eq_right h

theorem compute_unmetered_value_no_submeters_witness :
    compute_unmetered_value (some 3) [] = some 3 :=
  compute_unmetered_value_no_submeters 3 (by norm_num)

/-- C10: `evaluate_formula` is total: when the main consumption is not
strictly positive it returns `0` rather than dividing, for every term map,
consumption map and total cost. -/
theorem evaluate_formula_nonpositive_guard (terms consumptions : List (String × ℚ))
    (total_cost main_consumption : ℚ) (h : main_consumption ≤ 0) :
    V2.evaluate_formula terms consumptions total_cost main_consumption = 0 := by
  simp [V2.evaluate_formula, if_pos h]

theorem evaluate_formula_nonpositive_guard_witness :
    V2.evaluate_formula [("a", 1)] [] 100 0 = 0 :=
  evaluate_formula_nonpositive_guard [("a", 1)] [] 100 0 (le_refl 0)

/-- C3: with a strictly positive main consumption, `evaluate_formula`
returns `round2 (total_cost * W / main_consumption)` where `W` sums
`coefficient * consumption` over the formula terms with absent meter names
contributing `0`; in particular a term whose meter name is not in the
consumption map leaves the result unchanged. -/
theorem evaluate_formula_spec (terms consumptions : List (String × ℚ))
    (total_cost main_consumption : ℚ) (h : 0 < main_consumption) :
    V2.evaluate_formula terms consumptions total_cost main_consumption
      = quantize2 (total_cost *
          (terms.map (fun t => t.2 * V2.dict_get consumptions t.1 0)).sum /
            main_consumption)
  ∧ ∀ nm coeff, consumptions.find? (fun p => p.1 == nm) = none →
      V2.evaluate_formula ((nm, coeff) :: terms) consumptions total_cost main_consumption
        = V2.evaluate_formula terms consumptions total_cost main_consumption := by
  constructor
  · simp [V2.evaluate_formula, not_le.mpr h]
  · intro nm coeff hnone
    simp [V2.evaluate_formula, V2.dict_get, hnone]

theorem evaluate_formula_spec_witness :
    V2.evaluate_formula [("a", 2)] [("a", 3)] 100 10 = 60 :=
  ((evaluate_formula_spec [("a", 2)] [("a", 3)] 100 10 (by norm_num)).1).trans
    (by with_unfolding_all decide)

theorem compute_meter_consumption_fallback (db : DB) (mid startT endT : Int)
    (hcase : V2.findAbsoluteReadingAt db mid startT = none ∨
      V2.findAbsoluteReadingAt db mid endT = none) :
    V2.compute_meter_consumption db mid startT endT
      = (if (V2.relativeReadingsInPeriod db mid startT endT).isEmpty then none
         else some (((V2.relativeReadingsInPeriod db mid startT endT).map
           MeterReading.value).sum)) := by
  unfold V2.compute_meter_consumption
  rcases h1 : V2.findAbsoluteReadingAt db mid startT with _ | sr
  · rfl
  · rcases h2 : V2.findAbsoluteReadingAt db mid endT with _ | er
    · rfl
    · rw [h1, h2] at hcase
      rcases hcase with hc | hc <;> cases hc

/-- C1: for every meter and period, consumption is computed with this
precedence: if an absolute reading is found exactly at `start` and exactly
at `end`, the result is their difference (relative readings are ignored);
otherwise, if relative readings with `start < t <= end` exist, the result
is their sum; otherwise the result is `none`.  The final two parts relate
the lookups to existence of matching readings in the store. -/
theorem compute_meter_consumption_precedence (db : DB) (mid startT endT : Int) :
    (∀ sr er, V2.findAbsoluteReadingAt db mid startT = some sr →
        V2.findAbsoluteReadingAt db mid endT = some er →
        V2.compute_meter_consumption db mid startT endT = some (er.value - sr.value))
  ∧ ((V2.findAbsoluteReadingAt db mid startT = none ∨
        V2.findAbsoluteReadingAt db mid endT = none) →
      V2.relativeReadingsInPeriod db mid startT endT ≠ [] →
      V2.compute_meter_consumption db mid startT endT
        = some (((V2.relativeReadingsInPeriod db mid startT endT).map
            MeterReading.value).sum))
  ∧ ((V2.findAbsoluteReadingAt db mid startT = none ∨
        V2.findAbsoluteReadingAt db mid endT = none) →
      V2.relativeReadingsInPeriod db mid startT endT = [] →
      V2.compute_meter_consumption db mid startT endT = none)
  ∧ ((V2.findAbsoluteReadingAt db mid startT).isSome ↔
      ∃ r ∈ db.readings, r.meter_id = mid ∧ r.reading_timestamp = startT ∧
        r.reading_type = ReadingType.absolute)
  ∧ (V2.relativeReadingsInPeriod db mid startT endT = [] ↔
      ¬ ∃ r ∈ db.readings, r.meter_id = mid ∧
        r.reading_type = ReadingType.relative ∧
        startT < r.reading_timestamp ∧ r.reading_timestamp ≤ endT) := by
  refine ⟨?_, ?_, ?_, ?_, ?_⟩
  · intro sr er h1 h2
    unfold V2.compute_meter_consumption
    rw [h1, h2]
  · intro hcase hne
    rw [compute_meter_consumption_fallback db mid startT endT hcase]
    rcases hrel : V2.relativeReadingsInPeriod db mid startT endT with _ | ⟨a, l⟩
    · exact absurd hrel hne
    · rfl
  · intro hcase hnil
    rw [compute_meter_consumption_fallback db mid startT endT hcase, hnil]
    rfl
  · simp [V2.findAbsoluteReadingAt, List.find?_isSome]
  · simp [V2.relativeReadingsInPeriod, List.filter_eq_nil_iff]

theorem compute_meter_consumption_precedence_witness :
    V2.compute_meter_consumption dbAbs 1 0 10 = some 3 := by
  have h := (compute_meter_consumption_precedence dbAbs 1 0 10).1 rdA rdB
    (by with_unfolding_all decide) (by with_unfolding_all decide)
  rw [h]
  with_unfolding_all decide

theorem v2_entries_not_virtual (db : DB) (pid startT endT : Int) :
    ∀ x ∈ V2.submeterConsumptions db pid startT endT, x.is_virtual = false := by
  intro x hx
  rcases List.mem_filterMap.mp hx with ⟨sm, -, hsm⟩
  rcases Option.map_eq_some'.mp hsm with ⟨c, -, hc⟩
  rw [← hc]

/-- C9: the submeter list of the v2 consumption summary contains an entry
named `_unmetered` flagged virtual exactly when the unmetered residual is
present and strictly positive; when it is, the appended entry carries the
residual value. -/
theorem v2_unmetered_entry_iff (db : DB) (pid startT endT : Int) :
    ((∃ x ∈ (V2.get_property_consumption db pid startT endT).submeters,
        x.name = "_unmetered" ∧ x.is_virtual = true) ↔
      (∃ u, (V2.get_property_consumption db pid startT endT).unmetered_consumption
          = some u ∧ 0 < u))
  ∧ (∀ u, (V2.get_property_consumption db pid startT endT).unmetered_consumption
        = some u → 0 < u →
      ({ name := "_unmetered", meter_id := -1, location := none,
         consumption := u, is_virtual := true } : SubMeterConsumptionV2)
        ∈ (V2.get_property_consumption db pid startT endT).submeters) := by
  have hnv := v2_entries_not_virtual db pid startT endT
  show ((∃ x ∈ V2.submetersWithUnmetered db pid startT endT,
          x.name = "_unmetered" ∧ x.is_virtual = true) ↔
        (∃ u, V2.unmeteredConsumption db pid startT endT = some u ∧ 0 < u))
    ∧ (∀ u, V2.unmeteredConsumption db pid startT endT = some u → 0 < u →
        ({ name := "_unmetered", meter_id := -1, location := none,
           consumption := u, is_virtual := true } : SubMeterConsumptionV2)
          ∈ V2.submetersWithUnmetered db pid startT endT)
  rcases hu : V2.unmeteredConsumption db pid startT endT with _ | u
  · simp only [V2.submetersWithUnmetered, hu]
    constructor
    · constructor
      · rintro ⟨x, hx, -, hvx⟩
        rw [hnv x hx] at hvx
        cases hvx
      · rintro ⟨u, hu', -⟩
        cases hu'
    · intro u hu'
      cases hu'
  · simp only [V2.submetersWithUnmetered, hu]
    by_cases hpos : 0 < u
    · rw [if_pos hpos]
      constructor
      · constructor
        · intro _
          exact ⟨u, rfl, hpos⟩
        · intro _
          refine ⟨_, List.mem_append_right _ (List.mem_singleton.mpr rfl), rfl, rfl⟩
      · intro u' hu' _
        rw [Option.some.injEq] at hu'
        subst hu'
        exact List.mem_append_right _ (List.mem_singleton.mpr rfl)
    · rw [if_neg hpos]
      constructor
      · constructor
        · rintro ⟨x, hx, -, hvx⟩
          rw [hnv x hx] at hvx
          cases hvx
        · rintro ⟨u', hu', hp'⟩
          rw [Option.some.injEq] at hu'
          subst hu'
          exact absurd hp' hpos
      · intro u' hu' hp'
        rw [Option.some.injEq] at hu'
        subst hu'
        exact absurd hp' hpos

theorem v2_unmetered_entry_iff_witness :
    ({ name := "_unmetered", meter_id := -1, location := none,
       consumption := 6, is_virtual := true } : SubMeterConsumptionV2)
      ∈ (V2.get_property_consumption dbFull 1 0 10).submeters :=
  (v2_unmetered_entry_iff dbFull 1 0 10).2 6 (by with_unfolding_all decide)
    (by norm_num)

/-- C4: the formula distribution fails with a PreconditionFailure (and
produces no result) exactly when there is no active formula for the
property or the main-meter consumption is absent or non-positive; when
neither precondition is violated it returns a result carrying one share per
active formula, in order. -/
theorem distribute_costs_preconditions (db : DB) (pid startT endT : Int)
    (total_cost : ℚ) :
    ((∃ err, V2.distribute_costs db pid startT endT total_cost = Except.error err) ↔
      V2.precondition_violated db pid startT endT)
  ∧ (¬ V2.precondition_violated db pid startT endT →
      ∃ r, V2.distribute_costs db pid startT endT total_cost = Except.ok r)
  ∧ (∀ r, V2.distribute_costs db pid startT endT total_cost = Except.ok r →
      r.shares.map V2.FormulaShareResult.formula_id
        = (V2.get_formulas_for_property db pid true).map CostFormula.id) := by
  rcases hF : V2.get_formulas_for_property db pid true with _ | ⟨f0, fs⟩
  · have heq : V2.distribute_costs db pid startT endT total_cost
        = Except.error V2.PreconditionFailure.no_active_formulas := by
      unfold V2.distribute_costs
      rw [hF]
      rfl
    refine ⟨⟨fun _ => Or.inl hF, fun _ => ⟨_, heq⟩⟩, ?_, ?_⟩
    · intro hn
      exact absurd (Or.inl hF) hn
    · intro r hr
      rw [heq] at hr
      cases hr
  · have hne : ¬ ((V2.get_formulas_for_property db pid true).isEmpty = true) := by
      rw [hF]
      simp
    rcases hmc : (V2.compute_consumption_map db pid startT endT).2.1 with _ | mc
    · have heq : V2.distribute_costs db pid startT endT total_cost
          = Except.error V2.PreconditionFailure.main_consumption_unavailable := by
        unfold V2.distribute_costs
        rw [if_neg hne, hmc]
      refine ⟨⟨fun _ => Or.inr (Or.inl hmc), fun _ => ⟨_, heq⟩⟩, ?_, ?_⟩
      · intro hn
        exact absurd (Or.inr (Or.inl hmc)) hn
      · intro r hr
        rw [heq] at hr
        cases hr
    · by_cases hle : mc ≤ 0
      · have heq : V2.distribute_costs db pid startT endT total_cost
            = Except.error V2.PreconditionFailure.main_consumption_unavailable := by
          unfold V2.distribute_costs
          rw [if_neg hne, hmc]
          exact if_pos hle
        refine ⟨⟨fun _ => Or.inr (Or.inr ⟨mc, hmc, hle⟩), fun _ => ⟨_, heq⟩⟩, ?_, ?_⟩
        · intro hn
          exact absurd (Or.inr (Or.inr ⟨mc, hmc, hle⟩)) hn
        · intro r hr
          rw [heq] at hr
          cases hr
      · have heq : V2.distribute_costs db pid startT endT total_cost
            = Except.ok
                { property_id := pid, start_timestamp := startT, end_timestamp := endT,
                  total_cost := total_cost, main_meter_consumption := mc,
                  unmetered_consumption := (V2.compute_consumption_map db pid startT endT).2.2,
                  meter_consumptions := (V2.compute_consumption_map db pid startT endT).1,
                  shares := (V2.get_formulas_for_property db pid true).map
                    (V2.mkFormulaShare (V2.compute_consumption_map db pid startT endT).1
                      total_cost mc) } := by
          unfold V2.distribute_costs
          rw [if_neg hne, hmc]
          exact if_neg hle
        refine ⟨⟨?_, fun hviol => ?_⟩, ?_, ?_⟩
        · rintro ⟨err, herr⟩
          rw [heq] at herr
          cases herr
        · exfalso
          rcases hviol with hv | hv | ⟨mc', hmc', hle'⟩
          · rw [hF] at hv
            cases hv
          · rw [hmc] at hv
            cases hv
          · rw [hmc, Option.some.injEq] at hmc'
            subst hmc'
            exact hle hle'
        · intro _
          exact ⟨_, heq⟩
        · intro r hr
          rw [heq, Except.ok.injEq] at hr
          subst hr
          rw [← hF]
          show ((V2.get_formulas_for_property db pid true).map
              (V2.mkFormulaShare (V2.compute_consumption_map db pid startT endT).1
                total_cost mc)).map V2.FormulaShareResult.formula_id
            = (V2.get_formulas_for_property db pid true).map CostFormula.id
          rw [List.map_map]
          rfl

theorem distribute_costs_preconditions_witness :
    okResult.shares.map V2.FormulaShareResult.formula_id
      = (V2.get_formulas_for_property dbFull 1 true).map CostFormula.id :=
  (distribute_costs_preconditions dbFull 1 0 10 100).2.2 okResult
    (by with_unfolding_all rfl)

/-- C6 counterexample: on `dbNoMain` the submeter `apt_a` has consumption 2
and the submetered total is 2 (strictly positive), but because the main
meter has no data the unmetered residual is absent and the code reports a
consumption share of 0, not `2 / 2`. -/
theorem consumption_share_counterexample :
    (V1.get_property_consumption dbNoMain 1 0 10).total_submetered_consumption = 2
  ∧ (V1.get_property_consumption dbNoMain 1 0 10).unmetered_consumption = none
  ∧ ((V1.distribute_costs dbNoMain 1 0 10 100).submeters.map
      SubMeterCostShare.consumption) = [2]
  ∧ ((V1.distribute_costs dbNoMain 1 0 10 100).submeters.map
      SubMeterCostShare.consumption_share) = [0]
  ∧ (0 : ℚ) ≠ 2 / 2 := by
  with_unfolding_all decide

/-- C6 (amended): each reported consumption share equals the submeter's
consumption divided by the submetered total when that total is strictly
positive AND the unmetered residual is present; otherwise (including the
case of a positive total with absent main-meter data) it is 0. -/
theorem distribute_costs_consumption_share (db : DB) (pid startT endT : Int)
    (total_cost : ℚ) :
    ∀ sh ∈ (V1.distribute_costs db pid startT endT total_cost).submeters,
      sh.consumption_share =
        if 0 < (V1.get_property_consumption db pid startT endT).total_submetered_consumption ∧
            (V1.get_property_consumption db pid startT endT).unmetered_consumption ≠ none
        then sh.consumption /
          (V1.get_property_consumption db pid startT endT).total_submetered_consumption
        else 0 := by
  intro sh hsh
  have hfield : (V1.distribute_costs db pid startT endT total_cost).submeters
      = (if 0 < V1.total_consumption_for_cost db pid startT endT then
          (V1.submeter_cost_shares db pid startT endT).map
            (V1.applyCost (V1.total_consumption_for_cost db pid startT endT) total_cost)
        else V1.submeter_cost_shares db pid startT endT) := rfl
  rw [hfield] at hsh
  have main :
      ∀ sub ∈ (V1.get_property_consumption db pid startT endT).submeters,
        (V1.mkCostShare
          (V1.get_property_consumption db pid startT endT).total_submetered_consumption
          (V1.get_property_consumption db pid startT endT).unmetered_consumption
          sub).consumption_share =
        if 0 < (V1.get_property_consumption db pid startT endT).total_submetered_consumption ∧
            (V1.get_property_consumption db pid startT endT).unmetered_consumption ≠ none
        then sub.consumption /
          (V1.get_property_consumption db pid startT endT).total_submetered_consumption
        else 0 := by
    intro sub _
    rcases hU : (V1.get_property_consumption db pid startT endT).unmetered_consumption
        with _ | u
    · rw [if_neg]
      · simp [V1.mkCostShare]
      · rintro ⟨-, hne⟩
        exact hne rfl
    · by_cases hT :
        0 < (V1.get_property_consumption db pid startT endT).total_submetered_consumption
      · rw [if_pos ⟨hT, by simp⟩]
        simp [V1.mkCostShare, hT]
      · rw [if_neg (fun hc => hT hc.1)]
        simp [V1.mkCostShare, hT]
  split_ifs at hsh with hG
  · rcases List.mem_map.mp hsh with ⟨sh0, hsh0, rfl⟩
    rcases List.mem_map.mp hsh0 with ⟨sub, hsub, rfl⟩
    exact main sub hsub
  · rcases List.mem_map.mp hsh with ⟨sub, hsub, rfl⟩
    exact main sub hsub

theorem distribute_costs_consumption_share_witness :
    shA.consumption_share =
      (if 0 < (V1.get_property_consumption dbFull 1 0 10).total_submetered_consumption ∧
          (V1.get_property_consumption dbFull 1 0 10).unmetered_consumption ≠ none
       then shA.consumption /
         (V1.get_property_consumption dbFull 1 0 10).total_submetered_consumption
       else 0) :=
  distribute_costs_consumption_share dbFull 1 0 10 100 shA
    (by with_unfolding_all decide)

theorem mkCostShare_not_pos (T : ℚ) (U : Option ℚ) (sub : SubMeterConsumption)
    (hT : ¬ 0 < T) :
    V1.mkCostShare T U sub =
      { name := sub.name, meter_id := sub.meter_id, location := sub.location,
        consumption := sub.consumption, consumption_share := 0,
        unmetered_share := 0, total_consumption := sub.consumption + 0,
        cost := 0 } := by
  unfold V1.mkCostShare
  rcases U with _ | u
  · rfl
  · simp [hT]

/-- C7: when every computed submeter consumption is zero, the submetered
total and the grand total are both zero and the proportional distribution
reports consumption share 0, unmetered share 0 and cost 0 for every
submeter (no division takes place). -/
theorem distribute_costs_all_zero (db : DB) (pid startT endT : Int)
    (total_cost : ℚ)
    (h : ∀ sub ∈ (V1.get_property_consumption db pid startT endT).submeters,
        sub.consumption = 0) :
    (V1.get_property_consumption db pid startT endT).total_submetered_consumption = 0
  ∧ V1.total_consumption_for_cost db pid startT endT = 0
  ∧ ∀ sh ∈ (V1.distribute_costs db pid startT endT total_cost).submeters,
      sh.consumption_share = 0 ∧ sh.unmetered_share = 0 ∧ sh.cost = 0 := by
  have hT : (V1.get_property_consumption db pid startT endT).total_submetered_consumption
      = 0 := by
    apply List.sum_eq_zero
    intro x hx
    rcases List.mem_map.mp hx with ⟨sub, hsub, rfl⟩
    exact h sub hsub
  have hT0 : ¬ 0 < (V1.get_property_consumption db pid startT endT).total_submetered_consumption := by
    rw [hT]
    exact lt_irrefl 0
  have hG : V1.total_consumption_for_cost db pid startT endT = 0 := by
    apply List.sum_eq_zero
    intro x hx
    rcases List.mem_map.mp hx with ⟨sh0, hsh0, rfl⟩
    rcases List.mem_map.mp hsh0 with ⟨sub, hsub, rfl⟩
    rw [mkCostShare_not_pos _ _ _ hT0]
    show sub.consumption + 0 = 0
    rw [h sub hsub, add_zero]
  refine ⟨hT, hG, ?_⟩
  intro sh hsh
  have hfield : (V1.distribute_costs db pid startT endT total_cost).submeters
      = (if 0 < V1.total_consumption_for_cost db pid startT endT then
          (V1.submeter_cost_shares db pid startT endT).map
            (V1.applyCost (V1.total_consumption_for_cost db pid startT endT) total_cost)
        else V1.submeter_cost_shares db pid startT endT) := rfl
  rw [hfield, if_neg (by rw [hG]; exact lt_irrefl 0)] at hsh
  rcases List.mem_map.mp hsh with ⟨sub, hsub, rfl⟩
  rw [mkCostShare_not_pos _ _ _ hT0]
  exact ⟨rfl, rfl, rfl⟩

theorem distribute_costs_all_zero_witness :
    shZ.consumption_share = 0 ∧ shZ.unmetered_share = 0 ∧ shZ.cost = 0 :=
  (distribute_costs_all_zero dbZero 1 0 10 100 (by with_unfolding_all decide)).2.2
    shZ (by with_unfolding_all decide)

theorem sum_map_div_mul (l : List ℚ) (g c : ℚ) :
    (l.map (fun t => t / g * c)).sum = l.sum / g * c := by
  induction l with
  | nil => simp
  | cons x xs ih =>
      simp only [List.map_cons, List.sum_cons, ih]
      ring

theorem sum_map_quantize2_sub_le (xs : List ℚ) :
    |(xs.map quantize2).sum - xs.sum| ≤ (xs.length : ℚ) / 200 := by
  induction xs with
  | nil => simp
  | cons x xs ih =>
      simp only [List.map_cons, List.sum_cons, List.length_cons]
      have hq := quantize2_abs_sub_le x
      have htri : |quantize2 x + (xs.map quantize2).sum - (x + xs.sum)|
          ≤ |quantize2 x - x| + |(xs.map quantize2).sum - xs.sum| := by
        have hre : quantize2 x + (xs.map quantize2).sum - (x + xs.sum)
            = (quantize2 x - x) + ((xs.map quantize2).sum - xs.sum) := by ring
        rw [hre]
        exact abs_add _ _
      push_cast
      linarith

/-- C5: whenever the grand total of own-plus-unmetered-share consumption is
strictly positive, every submeter's cost is exactly its cost ratio times
the total cost rounded to two decimals independently, and the sum of the
rounded costs differs from the total cost by at most `0.01` per submeter;
no remainder-reconciliation pass is applied. -/
theorem distribute_costs_rounding (db : DB) (pid startT endT : Int)
    (total_cost : ℚ)
    (hG : 0 < ((V1.distribute_costs db pid startT endT total_cost).submeters.map
        SubMeterCostShare.total_consumption).sum) :
    (∀ sh ∈ (V1.distribute_costs db pid startT endT total_cost).submeters,
       sh.cost = quantize2 (sh.total_consumption /
         ((V1.distribute_costs db pid startT endT total_cost).submeters.map
            SubMeterCostShare.total_consumption).sum * total_cost))
  ∧ |((V1.distribute_costs db pid startT endT total_cost).submeters.map
        SubMeterCostShare.cost).sum - total_cost|
      ≤ ((V1.distribute_costs db pid startT endT total_cost).submeters.length : ℚ) / 100 := by
  have hfield : (V1.distribute_costs db pid startT endT total_cost).submeters
      = (if 0 < V1.total_consumption_for_cost db pid startT endT then
          (V1.submeter_cost_shares db pid startT endT).map
            (V1.applyCost (V1.total_consumption_for_cost db pid startT endT) total_cost)
        else V1.submeter_cost_shares db pid startT endT) := rfl
  have htotals : ((V1.distribute_costs db pid startT endT total_cost).submeters.map
      SubMeterCostShare.total_consumption).sum
      = V1.total_consumption_for_cost db pid startT endT := by
    rw [hfield]
    split_ifs with h
    · rw [List.map_map]
      rfl
    · rfl
  rw [htotals] at hG
  have hif : (V1.distribute_costs db pid startT endT total_cost).submeters
      = (V1.submeter_cost_shares db pid startT endT).map
          (V1.applyCost (V1.total_consumption_for_cost db pid startT endT) total_cost) := by
    rw [hfield, if_pos hG]
  constructor
  · intro sh hsh
    rw [htotals]
    rw [hif] at hsh
    rcases List.mem_map.mp hsh with ⟨sh0, -, rfl⟩
    rfl
  · rw [hif]
    have hcosts : (((V1.submeter_cost_shares db pid startT endT).map
        (V1.applyCost (V1.total_consumption_for_cost db pid startT endT) total_cost)).map
          SubMeterCostShare.cost)
        = ((V1.submeter_cost_shares db pid startT endT).map
            (fun sh0 => sh0.total_consumption /
              V1.total_consumption_for_cost db pid startT endT * total_cost)).map quantize2 := by
      rw [List.map_map, List.map_map]
      rfl
    rw [hcosts]
    have hXsum : ((V1.submeter_cost_shares db pid startT endT).map
        (fun sh0 => sh0.total_consumption /
          V1.total_consumption_for_cost db pid startT endT * total_cost)).sum
        = total_cost := by
      have hmm : ((V1.submeter_cost_shares db pid startT endT).map
          (fun sh0 => sh0.total_consumption /
            V1.total_consumption_for_cost db pid startT endT * total_cost))
          = (((V1.submeter_cost_shares db pid startT endT).map
              SubMeterCostShare.total_consumption).map
                (fun t => t / V1.total_consumption_for_cost db pid startT endT * total_cost)) := by
        rw [List.map_map]
        rfl
      rw [hmm, sum_map_div_mul]
      rw [show (((V1.submeter_cost_shares db pid startT endT).map
          SubMeterCostShare.total_consumption).sum)
          = V1.total_consumption_for_cost db pid startT endT from rfl]
      rw [div_self (ne_of_gt hG), one_mul]
    have hb := sum_map_quantize2_sub_le ((V1.submeter_cost_shares db pid startT endT).map
      (fun sh0 => sh0.total_consumption /
        V1.total_consumption_for_cost db pid startT endT * total_cost))
    rw [hXsum] at hb
    simp only [List.length_map] at hb ⊢
    have hnn : (0 : ℚ) ≤ ((V1.submeter_cost_shares db pid startT endT).length : ℚ) :=
      Nat.cast_nonneg _
    linarith

theorem distribute_costs_rounding_witness :
    |((V1.distribute_costs dbFull 1 0 10 100).submeters.map
        SubMeterCostShare.cost).sum - 100|
      ≤ ((V1.distribute_costs dbFull 1 0 10 100).submeters.length : ℚ) / 100 :=
  (distribute_costs_rounding dbFull 1 0 10 100 (by with_unfolding_all decide)).2
